import Mathlib

set_option maxHeartbeats 1000000

/-!
Shallow embedding of the gigahack-2025 capture / compare front end, with
theorems checking the natural-language specification against the code.

Sources embedded below:
- the `capture` downscaling logic of the camera component
  (`CameraCapture.capture` in both capture components);
- the camera lifecycle of the capture component (`startCamera`, `stopCamera`,
  `capture`, `handleFileUpload`), modelled with React's batched state-update
  semantics: `setX(...)` calls inside an event handler are applied together
  when the handler commits, while imperative hardware effects
  (`track.stop()`) take effect immediately;
- the compare page (`generateInitialDesigns`, `handleDesignChoice`, render);
- the design-service client (`dataURLtoFile`, `blobToDataURL`,
  `generateDesigns`);
- the preview page (`toggleCategory`, `handleGenerateDesign`, session-storage
  read effect) and the compare page's session-storage read effect.
-/

/-! ## Capture Controller: downscaling (`capture`) -/

/-- JS numeric truthiness fallback chain `a || b || c` (0 is falsy), as in
`(settings.width as number) || videoRef.current.videoWidth || 1280`. -/
def effectiveDim (settingsDim videoDim fallback : Nat) : Nat :=
  if settingsDim ≠ 0 then settingsDim
  else if videoDim ≠ 0 then videoDim
  else fallback

/-- The `const maxDim = 1920` bound of `capture`. -/
def maxDim : Nat := 1920

/-- `Math.round (a / b)` for natural `a` and positive `b`: round half up. -/
def roundDiv (a b : Nat) : Nat := (2 * a + b) / (2 * b)

/-- The downscaling computation of `capture`: when `max w h > 1920`, both
dimensions are rescaled by `1920 / max w h` and rounded
(`outW = Math.round(w * scale)`, `outH = Math.round(h * scale)`);
otherwise they are kept unchanged. -/
def computeOutputDims (w h : Nat) : Nat × Nat :=
  if maxDim < max w h then
    (roundDiv (w * maxDim) (max w h), roundDiv (h * maxDim) (max w h))
  else (w, h)

theorem roundDiv_bounds (a b : Nat) (hb : 0 < b) :
    2 * b * roundDiv a b ≤ 2 * a + b ∧ 2 * a ≤ 2 * b * roundDiv a b + b := by
  have h := Nat.div_add_mod (2 * a + b) (2 * b)
  have hlt : (2 * a + b) % (2 * b) < 2 * b := Nat.mod_lt _ (by omega)
  unfold roundDiv
  generalize hQ : (2 * a + b) / (2 * b) = q at h ⊢
  generalize hR : (2 * a + b) % (2 * b) = r at h hlt
  generalize hX : 2 * b * q = x at h ⊢
  omega

theorem roundDiv_mul_self (m : Nat) (hm : 0 < m) :
    roundDiv (m * 1920) m = 1920 := by
  unfold roundDiv
  have lo : 1920 * (2 * m) ≤ 2 * (m * 1920) + m := by
    have : 1920 * (2 * m) = 3840 * m := by ring
    have h2 : 2 * (m * 1920) + m = 3841 * m := by ring
    omega
  have hi : 2 * (m * 1920) + m < (1920 + 1) * (2 * m) := by
    have : (1920 + 1) * (2 * m) = 3842 * m := by ring
    have h2 : 2 * (m * 1920) + m = 3841 * m := by ring
    omega
  exact Nat.div_eq_of_lt_le lo hi

theorem roundDiv_le_1920 (x m : Nat) (hx : x ≤ m) (hm : 0 < m) :
    roundDiv (x * 1920) m ≤ 1920 := by
  have h1 : roundDiv (x * 1920) m ≤ roundDiv (m * 1920) m := by
    unfold roundDiv
    exact Nat.div_le_div_right (by nlinarith)
  calc roundDiv (x * 1920) m ≤ roundDiv (m * 1920) m := h1
  _ = 1920 := roundDiv_mul_self m hm

theorem scaled_aspect_bound (m w h q r : Nat) (hm : 0 < m)
    (h1 : 2 * m * q ≤ 2 * (w * 1920) + m)
    (h2 : 2 * (h * 1920) ≤ 2 * m * r + m) :
    2 * (q * h) ≤ 2 * (r * w) + w + h := by
  have s1 : 2 * m * q * h ≤ (2 * (w * 1920) + m) * h :=
    mul_le_mul_right' h1 h
  have s2 : 2 * (h * 1920) * w ≤ (2 * m * r + m) * w :=
    mul_le_mul_right' h2 w
  have key : m * (2 * (q * h)) ≤ m * (2 * (r * w) + w + h) := by
    calc m * (2 * (q * h)) = 2 * m * q * h := by ring
    _ ≤ (2 * (w * 1920) + m) * h := s1
    _ = 2 * (h * 1920) * w + m * h := by ring
    _ ≤ (2 * m * r + m) * w + m * h := Nat.add_le_add_right s2 _
    _ = m * (2 * (r * w) + w + h) := by ring
  exact Nat.le_of_mul_le_mul_left key hm

/-- C1: for every input width and height (the fallback dimensions included),
the output of the capture downscaling has its longer dimension at most 1920
and preserves the aspect ratio to within rounding (the cross products
`outW * h` and `outH * w` differ by at most `(w + h) / 2`); in particular a
3000×2000 frame yields 1920×1280, an exact 3:2 ratio. -/
theorem capture_downscale_spec :
    (∀ w h : Nat,
      max (computeOutputDims w h).1 (computeOutputDims w h).2 ≤ 1920 ∧
      2 * ((computeOutputDims w h).1 * h) ≤
        2 * ((computeOutputDims w h).2 * w) + w + h ∧
      2 * ((computeOutputDims w h).2 * w) ≤
        2 * ((computeOutputDims w h).1 * h) + w + h) ∧
    computeOutputDims 3000 2000 = (1920, 1280) ∧
    1920 * 2 = 1280 * 3 ∧
    computeOutputDims (effectiveDim 0 0 1280) (effectiveDim 0 0 720) =
      (1280, 720) := by
  refine ⟨?_, by decide, by decide, by decide⟩
  intro w h
  by_cases hcase : maxDim < max w h
  · have hm : 0 < max w h := lt_trans (by norm_num [maxDim]) hcase
    have hq := roundDiv_bounds (w * 1920) (max w h) hm
    have hr := roundDiv_bounds (h * 1920) (max w h) hm
    have hdef : computeOutputDims w h =
        (roundDiv (w * 1920) (max w h), roundDiv (h * 1920) (max w h)) := by
      unfold computeOutputDims
      rw [if_pos hcase]
      rfl
    rw [hdef]
    dsimp only
    refine ⟨?_, ?_, ?_⟩
    · simp only [max_le_iff]
      exact ⟨roundDiv_le_1920 w (max w h) (le_max_left w h) hm,
             roundDiv_le_1920 h (max w h) (le_max_right w h) hm⟩
    · exact scaled_aspect_bound (max w h) w h _ _ hm hq.1 hr.2
    · have := scaled_aspect_bound (max w h) h w _ _ hm hr.1 hq.2
      omega
  · have hdef : computeOutputDims w h = (w, h) := by
      unfold computeOutputDims
      rw [if_neg hcase]
    rw [hdef]
    refine ⟨?_, ?_, ?_⟩
    · simpa [maxDim] using le_of_not_lt hcase
    · have : w * h = h * w := Nat.mul_comm w h
      nlinarith
    · have : w * h = h * w := Nat.mul_comm w h
      nlinarith

/-! ## Capture Controller: camera lifecycle (`capture`, `handleFileUpload`)

React state setters (`setFrozenFrame`, `setStream`, ...) called inside an
event handler are batched and take effect together when the handler commits,
whereas `track.stop()` inside `stopCamera` releases the hardware track
immediately.  The observable states of one `capture` invocation are
therefore: the state before the handler, the state after the synchronous
hardware release, and the committed state. -/

/-- Hardware side: the set of camera tracks that are currently live,
identified by numeric ids. -/
structure Camera where
  liveTracks : List Nat
deriving Repr, DecidableEq

/-- React state of the capture component (`stream`, `frozenFrame`,
`uploadedImage`, `blob`, `showToast`).  A held stream is modelled by the ids
of its tracks. -/
structure CaptureUi where
  stream : Option (List Nat)
  frozenFrame : Option String
  uploadedImage : Option String
  blob : Option String
  showToast : Bool
deriving Repr, DecidableEq

/-- Combined observable state: hardware tracks plus committed React state. -/
structure CaptureWorld where
  cam : Camera
  ui : CaptureUi
deriving Repr, DecidableEq

/-- `stream?.getTracks().forEach((t) => t.stop())`: every track of the given
stream is stopped at the hardware level. -/
def stopTracks (cam : Camera) (ids : List Nat) : Camera :=
  { liveTracks := cam.liveTracks.filter (fun t => !(ids.contains t)) }

/-- The synchronous hardware effect of `stopCamera()` during the handler:
tracks of the held stream die; React state is not yet committed. -/
def captureStopStep (w : CaptureWorld) : CaptureWorld :=
  { w with cam := stopTracks w.cam (w.ui.stream.getD []) }

/-- The committed state after `capture`: `setFrozenFrame(dataUrl)`,
`setStream(null)` (from `stopCamera`) and `setShowToast(true)` land
together. -/
def captureFinal (dataUrl : String) (w : CaptureWorld) : CaptureWorld :=
  { cam := (captureStopStep w).cam,
    ui := { stream := none, frozenFrame := some dataUrl,
            uploadedImage := w.ui.uploadedImage, blob := w.ui.blob,
            showToast := true } }

/-- Observable states of one `capture` invocation, in order. -/
def captureTrace (dataUrl : String) (w : CaptureWorld) : List CaptureWorld :=
  [w, captureStopStep w, captureFinal dataUrl w]

/-- The committed state after `handleFileUpload`'s reader callback:
`setUploadedImage(dataUrl)`, `setFrozenFrame(dataUrl)`, `setStream(null)`
(from `stopCamera()`) and `setShowToast(true)` land together. -/
def uploadFinal (dataUrl : String) (w : CaptureWorld) : CaptureWorld :=
  { cam := (captureStopStep w).cam,
    ui := { stream := none, frozenFrame := some dataUrl,
            uploadedImage := some dataUrl, blob := w.ui.blob,
            showToast := true } }

/-- Observable states of one `handleFileUpload` callback, in order. -/
def uploadTrace (dataUrl : String) (w : CaptureWorld) : List CaptureWorld :=
  [w, captureStopStep w, uploadFinal dataUrl w]

/-- The component holds a camera stream at least one of whose tracks is still
live on the hardware side. -/
def liveHeldStream (st : CaptureWorld) : Bool :=
  match st.ui.stream with
  | some ids => ids.any (fun t => st.cam.liveTracks.contains t)
  | none => false

/-- A live camera stream coexisting with a frozen frame. -/
def frozenAndLive (st : CaptureWorld) : Bool :=
  liveHeldStream st && st.ui.frozenFrame.isSome

/-- C2: starting from any state that is not yet frozen, no observable state
of `capture` or of `handleFileUpload` has a live camera stream coexisting
with a frozen frame; the hardware release strictly precedes entry into the
frozen state (at the release step the frozen frame is still unset and every
track of the held stream is already dead); and in the committed state after
a successful capture or file upload no camera stream remains held, all of
its tracks are stopped, and the frozen frame is set. -/
theorem camera_release_before_frozen (d : String) (w : CaptureWorld)
    (hfe : w.ui.frozenFrame = none) :
    ((captureTrace d w).all (fun st => !frozenAndLive st)) = true ∧
    ((uploadTrace d w).all (fun st => !frozenAndLive st)) = true ∧
    (captureStopStep w).ui.frozenFrame = none ∧
    (∀ t ∈ w.ui.stream.getD [], t ∉ (captureStopStep w).cam.liveTracks) ∧
    (captureFinal d w).ui.stream = none ∧
    (captureFinal d w).ui.frozenFrame = some d ∧
    (∀ t ∈ w.ui.stream.getD [], t ∉ (captureFinal d w).cam.liveTracks) ∧
    (uploadFinal d w).ui.stream = none ∧
    (uploadFinal d w).ui.frozenFrame = some d ∧
    (∀ t ∈ w.ui.stream.getD [], t ∉ (uploadFinal d w).cam.liveTracks) := by
  have hdead : ∀ t ∈ w.ui.stream.getD [],
      t ∉ (captureStopStep w).cam.liveTracks := by
    intro t ht hmem
    simp [captureStopStep, stopTracks, List.mem_filter] at hmem
    exact hmem.2 ht
  refine ⟨?_, ?_, ?_, hdead, rfl, rfl, hdead, rfl, rfl, hdead⟩
  · simp [captureTrace, frozenAndLive, liveHeldStream, captureStopStep,
      captureFinal, hfe]
  · simp [uploadTrace, frozenAndLive, liveHeldStream, captureStopStep,
      uploadFinal, hfe]
  · simp [captureStopStep, hfe]

/-- Witness for `camera_release_before_frozen` at a concrete streaming
state: two live tracks held, no frozen frame yet. -/
theorem camera_release_before_frozen_witness :
    (∀ t ∈ (some [0, 1] : Option (List Nat)).getD [],
      t ∉ (captureFinal "data:image/jpeg;base64,QUJD"
            ⟨⟨[0, 1]⟩, ⟨some [0, 1], none, none, none, false⟩⟩).cam.liveTracks) ∧
    (captureFinal "data:image/jpeg;base64,QUJD"
        ⟨⟨[0, 1]⟩, ⟨some [0, 1], none, none, none, false⟩⟩).ui.stream = none := by
  have h := camera_release_before_frozen "data:image/jpeg;base64,QUJD"
    ⟨⟨[0, 1]⟩, ⟨some [0, 1], none, none, none, false⟩⟩ rfl
  exact ⟨h.2.2.2.2.2.2.1, h.2.2.2.2.1⟩

/-! ## String helpers (JS semantics, executable by the kernel) -/

/-- `s.startsWith(pat)`. -/
def strStartsWith (s pat : String) : Bool := pat.toList.isPrefixOf s.toList

/-- Splitting a character list at every occurrence of `sep`, keeping empty
segments, as JS `String.prototype.split` does for a one-character
separator. -/
def splitOnChar (sep : Char) : List Char → List (List Char)
  | [] => [[]]
  | c :: rest =>
    let r := splitOnChar sep rest
    if c = sep then [] :: r
    else match r with
      | g :: gs => (c :: g) :: gs
      | [] => [[c]]

/-- JS `s.split(',')`. -/
def jsSplitComma (s : String) : List String :=
  (splitOnChar ',' s.toList).map (fun l => String.mk l)

/-- JS `s.includes(pat)`: `pat` occurs as a contiguous substring of `s`. -/
def includesSub (s pat : String) : Bool :=
  (List.range (s.toList.length + 1)).any
    (fun i => pat.toList.isPrefixOf (s.toList.drop i))

/-! ## Base64 (the browser's `atob` / `btoa`) -/

/-- Value of a base64 alphabet character. -/
def b64Val (c : Char) : Option Nat :=
  if 'A' ≤ c ∧ c ≤ 'Z' then some (c.toNat - 65)
  else if 'a' ≤ c ∧ c ≤ 'z' then some (c.toNat - 97 + 26)
  else if '0' ≤ c ∧ c ≤ '9' then some (c.toNat - 48 + 52)
  else if c = '+' then some 62
  else if c = '/' then some 63
  else none

/-- Base64 alphabet character of a 6-bit value. -/
def b64Char (n : Nat) : Char :=
  if n < 26 then Char.ofNat (65 + n)
  else if n < 52 then Char.ofNat (97 + (n - 26))
  else if n < 62 then Char.ofNat (48 + (n - 52))
  else if n = 62 then '+'
  else '/'

/-- Decode a list of 6-bit values into bytes (final group of two or three
characters yields one or two bytes). -/
def decodeVals : List Nat → List Nat
  | a :: b :: c :: d :: rest =>
      (a * 4 + b / 16) :: ((b % 16) * 16 + c / 4) :: ((c % 4) * 64 + d) ::
        decodeVals rest
  | [a, b] => [a * 4 + b / 16]
  | [a, b, c] => [a * 4 + b / 16, (b % 16) * 16 + c / 4]
  | _ => []

/-- ASCII whitespace stripped by forgiving-base64 decoding. -/
def isB64Whitespace (c : Char) : Bool :=
  c = ' ' || c = '\t' || c = '\n' || c.toNat = 12 || c = '\r'

/-- The browser's `atob`: forgiving-base64 decode to a binary string whose
characters are the decoded byte values; `none` models the
`InvalidCharacterError` that `atob` throws on malformed input. -/
def atob (s : String) : Option String :=
  let cs0 := s.toList.filter (fun c => !(isB64Whitespace c))
  let cs :=
    if cs0.length % 4 = 0 then
      match cs0.getLast? with
      | some '=' =>
        let cs1 := cs0.dropLast
        match cs1.getLast? with
        | some '=' => cs1.dropLast
        | _ => cs1
      | _ => cs0
    else cs0
  if cs.length % 4 = 1 then none
  else match cs.mapM b64Val with
    | none => none
    | some vals => some (String.mk ((decodeVals vals).map Char.ofNat))

/-- Encode bytes as base64 with `=` padding. -/
def encodeBytes : List Nat → List Char
  | b1 :: b2 :: b3 :: rest =>
      b64Char (b1 / 4) :: b64Char ((b1 % 4) * 16 + b2 / 16) ::
      b64Char ((b2 % 16) * 4 + b3 / 64) :: b64Char (b3 % 64) ::
        encodeBytes rest
  | [b1, b2] => [b64Char (b1 / 4), b64Char ((b1 % 4) * 16 + b2 / 16),
      b64Char ((b2 % 16) * 4), '=']
  | [b1] => [b64Char (b1 / 4), b64Char ((b1 % 4) * 16), '=', '=']
  | [] => []

/-- The browser's `btoa` on a binary string. -/
def btoa (s : String) : String :=
  String.mk (encodeBytes (s.toList.map Char.toNat))

/-- Decimal digit character. -/
def digitChar (n : Nat) : Char := Char.ofNat (48 + n)

/-- Fuel-driven decimal rendering (the fuel argument only bounds the
recursion depth; `n + 1` fuel always suffices). -/
def natDigitsAux : Nat → Nat → List Char
  | 0, _ => []
  | fuel + 1, n =>
    if n < 10 then [digitChar n]
    else natDigitsAux fuel (n / 10) ++ [digitChar (n % 10)]

/-- JS `n.toString()` for a nonnegative integer such as `Date.now()`. -/
def natToString (n : Nat) : String := String.mk (natDigitsAux (n + 1) n)

/-! ## Design Generation Client (`dataURLtoFile`, `blobToDataURL`,
`generateDesigns`) -/

/-- A file entry of a multipart form body. The `data` is a binary string
whose characters are byte values, exactly what `atob` yields. -/
structure MultipartFile where
  name : String
  mime : String
  data : String
deriving Repr, DecidableEq

/-- An HTTP request issued by `generateDesigns`: the endpoint under
`/tiles/` and the `files` entries of the multipart body, in order. -/
structure GenRequest where
  endpoint : String
  files : List MultipartFile
deriving Repr, DecidableEq

/-- An HTTP response from the generation service. -/
structure HttpResponse where
  status : Nat
  contentType : String
  body : String
deriving Repr, DecidableEq

/-- `Response.ok`: status in the inclusive range 200–299. -/
def respOk (r : HttpResponse) : Bool := 200 ≤ r.status && r.status ≤ 299

/-- A JS `Blob`: MIME type plus binary payload. -/
structure JsBlob where
  type : String
  data : String
deriving Repr, DecidableEq

/-- The `header.match(/:(.*?);/)?.[1] || 'image/jpeg'` extraction in
`dataURLtoFile`: the text between the first `:` and the first `;` after it,
defaulting to `image/jpeg` when there is no such pair. -/
def extractMime (header : String) : String :=
  match header.toList.dropWhile (fun c => c ≠ ':') with
  | [] => "image/jpeg"
  | _ :: afterColon =>
    if afterColon.contains ';' then
      String.mk (afterColon.takeWhile (fun c => c ≠ ';'))
    else "image/jpeg"

/-- `dataURLtoFile` of the design service: validates the `data:` scheme,
splits header from base64 body at commas (JS destructuring takes the first
two segments), requires a `;base64` marker, decodes with `atob`, and wraps
the bytes as a file.  Thrown errors become `Except.error` with the thrown
message. -/
def dataURLtoFile (dataUrl filename : String) : Except String MultipartFile :=
  if !(strStartsWith dataUrl "data:") then .error "Invalid data URL format"
  else
    match jsSplitComma dataUrl with
    | [] => .error "Invalid data URL format: missing header or data"
    | header :: rest =>
      match rest.head? with
      | none => .error "Invalid data URL format: missing header or data"
      | some base64Data =>
        if header = "" ∨ base64Data = "" then
          .error "Invalid data URL format: missing header or data"
        else
          let mime := extractMime header
          if !(includesSub header ";base64") then
            .error "Data URL is not base64 encoded"
          else
            match atob base64Data with
            | none => .error "Failed to decode image data"
            | some bstr => .ok ⟨filename, mime, bstr⟩

/-- `blobToDataURL` (`FileReader.readAsDataURL`): a `data:` URL with the
blob's MIME type and base64-encoded payload. -/
def blobToDataURL (b : JsBlob) : String :=
  "data:" ++ b.type ++ ";base64," ++ btoa b.data

/-- `generateDesigns(originalImage, tileImage?)`: converts the data URLs to
files, appends them as `files` form entries (original first, tile second),
POSTs to `tiles/generate/` when a tile is supplied and to
`tiles/generate-random/` otherwise, and maps the response: a non-ok status
becomes a descriptive error carrying the status and the body text, an ok
status yields the raw body as a blob.  The function also returns the list of
HTTP requests it issued (empty when conversion threw before `fetch`). -/
def generateDesignsHttp (originalImage : String) (tileImage : Option String)
    (resp : HttpResponse) : Except String JsBlob × List GenRequest :=
  match dataURLtoFile originalImage "original.jpg" with
  | .error e => (.error e, [])
  | .ok originalFile =>
    let built : Except String (String × List MultipartFile) :=
      match tileImage with
      | none => .ok ("generate-random", [originalFile])
      | some t =>
        match dataURLtoFile t "tile.jpg" with
        | .error e => .error e
        | .ok tileFile => .ok ("generate", [originalFile, tileFile])
    match built with
    | .error e => (.error e, [])
    | .ok (endpoint, files) =>
      if respOk resp then
        (.ok ⟨resp.contentType, resp.body⟩, [⟨endpoint, files⟩])
      else
        (.error ("Failed to generate design: " ++ natToString resp.status ++
          " " ++ resp.body), [⟨endpoint, files⟩])

/-- C6: whenever the source image converts to a file, `generateDesigns`
issues exactly one POST: to `generate-random` with one file when no style
tile is supplied, and to `generate` with two files when one is; whenever a
request was issued, a 2xx response yields the raw body as the blob result
and a non-2xx response yields an error carrying the status and the body
text. -/
theorem generate_designs_request_spec (orig : String) (resp : HttpResponse)
    (f : MultipartFile) (ho : dataURLtoFile orig "original.jpg" = .ok f) :
    (generateDesignsHttp orig none resp).2 = [⟨"generate-random", [f]⟩] ∧
    (∀ t ft, dataURLtoFile t "tile.jpg" = .ok ft →
      (generateDesignsHttp orig (some t) resp).2 =
        [⟨"generate", [f, ft]⟩]) ∧
    (∀ tile, (generateDesignsHttp orig tile resp).2 ≠ [] →
      (respOk resp = true →
        (generateDesignsHttp orig tile resp).1 =
          .ok ⟨resp.contentType, resp.body⟩) ∧
      (respOk resp = false →
        (generateDesignsHttp orig tile resp).1 =
          .error ("Failed to generate design: " ++ natToString resp.status ++
            " " ++ resp.body))) := by
  refine ⟨?_, ?_, ?_⟩
  · simp only [generateDesignsHttp, ho]
    cases hok : respOk resp <;> simp
  · intro t ft hft
    simp only [generateDesignsHttp, ho, hft]
    cases hok : respOk resp <;> simp
  · intro tile hne
    cases tile with
    | none =>
      simp only [generateDesignsHttp, ho]
      cases hok : respOk resp <;> simp
    | some t =>
      cases hft : dataURLtoFile t "tile.jpg" with
      | error e =>
        exfalso
        apply hne
        simp [generateDesignsHttp, ho, hft]
      | ok ft =>
        simp only [generateDesignsHttp, ho, hft]
        cases hok : respOk resp <;> simp

/-- Witness for `generate_designs_request_spec`: a concrete valid data URL
and a 500 response with body `model unavailable`. -/
theorem generate_designs_request_spec_witness :
    (generateDesignsHttp "data:image/jpeg;base64,QUJD" none
      ⟨500, "text/plain", "model unavailable"⟩).2 =
      [⟨"generate-random", [⟨"original.jpg", "image/jpeg", "ABC"⟩]⟩] ∧
    (generateDesignsHttp "data:image/jpeg;base64,QUJD" none
      ⟨500, "text/plain", "model unavailable"⟩).1 =
      .error ("Failed to generate design: " ++ natToString 500 ++
        " " ++ "model unavailable") := by
  have h := generate_designs_request_spec "data:image/jpeg;base64,QUJD"
    ⟨500, "text/plain", "model unavailable"⟩
    ⟨"original.jpg", "image/jpeg", "ABC"⟩ (by rfl)
  refine ⟨h.1, ?_⟩
  exact (h.2.2 none (by rw [h.1]; simp)).2 (by decide)

/-! ## Session Transfer (`sessionStorage` with clear-on-read consumers) -/

/-- Session storage: key/value pairs; `getItem` finds the most recent
binding. -/
abbrev Store := List (String × String)

/-- `sessionStorage.getItem(k)`. -/
def getItem (st : Store) (k : String) : Option String :=
  (st.find? (fun p => p.1 == k)).map (fun p => p.2)

/-- `sessionStorage.removeItem(k)`. -/
def removeItem (st : Store) (k : String) : Store :=
  st.filter (fun p => !(p.1 == k))

/-- `sessionStorage.setItem(k, v)`. -/
def setItem (st : Store) (k v : String) : Store := (k, v) :: st

/-- The read-then-delete pattern both consuming screens use
(`getItem` followed by `removeItem` when a value is present). -/
def takeOnce (st : Store) (k : String) : Option String × Store :=
  match getItem st k with
  | some v => (some v, removeItem st k)
  | none => (none, st)

theorem find_filter_ne (k : String) (st : List (String × String)) :
    (st.filter (fun p => !(p.1 == k))).find? (fun p => p.1 == k) = none := by
  rw [List.find?_eq_none]
  intro p hp
  have h2 := List.of_mem_filter hp
  simp only [Bool.not_eq_true', beq_eq_false_iff_ne, ne_eq] at h2
  simp only [beq_iff_eq]
  exact h2

theorem getItem_removeItem (st : Store) (k : String) :
    getItem (removeItem st k) k = none := by
  simp [getItem, removeItem, find_filter_ne]

/-- Where the consuming screen navigates after its initialization effect. -/
inductive NavAction
  | stay
  | replaceRoot
deriving Repr, DecidableEq

/-- The sessionStorage-reading effect of the preview page: read
`capturedPhoto`; when present keep it and delete the key; when absent, or
when storage access throws (`accessOk = false`), redirect to `/`. -/
def previewInit (accessOk : Bool) (st : Store) :
    Option String × Store × NavAction :=
  if accessOk then
    match getItem st "capturedPhoto" with
    | some photo => (some photo, removeItem st "capturedPhoto", .stay)
    | none => (none, st, .replaceRoot)
  else (none, st, .replaceRoot)

/-- The sessionStorage-reading effect of the compare page: with a
`categories` query parameter present, read `designPhoto`; a missing value,
a value without the `data:image/` prefix, or a storage access error all
redirect to `/` (the prefix-failure path throws before `removeItem` runs). -/
def compareInit (categories : Option String) (accessOk : Bool) (st : Store) :
    Option String × Store × NavAction :=
  match categories with
  | none => (none, st, .replaceRoot)
  | some _ =>
    if accessOk then
      match getItem st "designPhoto" with
      | none => (none, st, .replaceRoot)
      | some photo =>
        if strStartsWith photo "data:image/" then
          (some photo, removeItem st "designPhoto", .stay)
        else (none, st, .replaceRoot)
    else (none, st, .replaceRoot)

/-- C5: a `put` followed by `takeOnce` returns the stored value and deletes
the key, so an immediate second `takeOnce` returns absent; and whenever a
consuming screen finds nothing (missing key or storage access error) it
redirects to the entry point `/` instead of rendering. -/
theorem session_transfer_take_once_spec (k v : String) (st : Store) :
    (takeOnce (setItem st k v) k).1 = some v ∧
    (takeOnce ((takeOnce (setItem st k v) k).2) k).1 = none ∧
    (∀ s2 : Store, getItem s2 "capturedPhoto" = none →
      previewInit true s2 = (none, s2, .replaceRoot)) ∧
    (∀ s2 : Store, previewInit false s2 = (none, s2, .replaceRoot)) ∧
    (∀ c : String, ∀ s2 : Store, getItem s2 "designPhoto" = none →
      compareInit (some c) true s2 = (none, s2, .replaceRoot)) ∧
    (∀ c : String, ∀ s2 : Store,
      compareInit (some c) false s2 = (none, s2, .replaceRoot)) := by
  have h1 : getItem (setItem st k v) k = some v := by
    simp [getItem, setItem, List.find?]
  refine ⟨?_, ?_, ?_, ?_, ?_, ?_⟩
  · simp [takeOnce, h1]
  · simp [takeOnce, h1, getItem_removeItem]
  · intro s2 h2
    simp [previewInit, h2]
  · intro s2
    simp [previewInit]
  · intro c s2 h2
    simp [compareInit, h2]
  · intro c s2
    simp [compareInit]

/-- Witness for `session_transfer_take_once_spec` at concrete key, value
and stores. -/
theorem session_transfer_take_once_spec_witness :
    (takeOnce (setItem [] "capturedPhoto" "v") "capturedPhoto").1 =
      some "v" ∧
    (takeOnce ((takeOnce (setItem [] "capturedPhoto" "v")
      "capturedPhoto").2) "capturedPhoto").1 = none ∧
    previewInit true [] = (none, [], .replaceRoot) ∧
    compareInit (some "floor") true [] = (none, [], .replaceRoot) := by
  have h := session_transfer_take_once_spec "capturedPhoto" "v" []
  exact ⟨h.1, h.2.1, h.2.2.1 [] rfl, h.2.2.2.2.1 "floor" [] rfl⟩

/-- C10: when the compare page finds a stored photo that fails the
`data:image/` prefix check, it redirects to `/` without deleting the
`designPhoto` key, so the value stays in session storage and clear-on-read
does not happen on this path. -/
theorem malformed_photo_key_retained (c photo : String) (st : Store)
    (hp : getItem st "designPhoto" = some photo)
    (hbad : strStartsWith photo "data:image/" = false) :
    compareInit (some c) true st = (none, st, .replaceRoot) ∧
    getItem st "designPhoto" = some photo := by
  refine ⟨?_, hp⟩
  simp [compareInit, hp, hbad]

/-- Witness for `malformed_photo_key_retained`: a stored photo that is not a
`data:image/` URL survives the redirect. -/
theorem malformed_photo_key_retained_witness :
    compareInit (some "floor") true [("designPhoto", "nonsense")] =
      (none, [("designPhoto", "nonsense")], .replaceRoot) ∧
    getItem [("designPhoto", "nonsense")] "designPhoto" = some "nonsense" :=
  malformed_photo_key_retained "floor" "nonsense"
    [("designPhoto", "nonsense")] rfl rfl

/-! ## Category Selector (preview page) -/

/-- The fixed enumerated category list (`designCategories` ids). -/
def designCategoryIds : List String :=
  ["floor", "walls", "furniture", "lighting", "decor"]

/-- `toggleCategory`: flip membership of the id in the JS `Set` of selected
categories (`delete` when present, `add` when absent).  `Finset` models the
JS `Set`: duplicates cannot arise. -/
def toggleCategory (categoryId : String) (sel : Finset String) :
    Finset String :=
  if categoryId ∈ sel then sel.erase categoryId else insert categoryId sel

/-- C9: toggling the same id twice returns the selection to its starting
value; a single toggle flips exactly the membership of the toggled id with
set semantics (other ids are untouched, and the `Finset` model excludes
duplicates by construction). -/
theorem toggle_category_involution_spec (sel : Finset String) (c : String) :
    toggleCategory c (toggleCategory c sel) = sel ∧
    (c ∈ toggleCategory c sel ↔ c ∉ sel) ∧
    (∀ d : String, d ∈ toggleCategory c sel ↔
      (if d = c then c ∉ sel else d ∈ sel)) := by
  by_cases h : c ∈ sel
  · have h1 : toggleCategory c sel = sel.erase c := by
      unfold toggleCategory
      rw [if_pos h]
    refine ⟨?_, ?_, ?_⟩
    · rw [h1]
      unfold toggleCategory
      rw [if_neg (Finset.not_mem_erase c sel), Finset.insert_erase h]
    · rw [h1]
      simp [h]
    · intro d
      rw [h1]
      by_cases hd : d = c
      · subst hd
        simp [h]
      · simp [Finset.mem_erase, hd]
  · have h1 : toggleCategory c sel = insert c sel := by
      unfold toggleCategory
      rw [if_neg h]
    refine ⟨?_, ?_, ?_⟩
    · rw [h1]
      unfold toggleCategory
      rw [if_pos (Finset.mem_insert_self c sel), Finset.erase_insert h]
    · rw [h1]
      simp [h]
    · intro d
      rw [h1]
      by_cases hd : d = c
      · subst hd
        simp [h]
      · simp [Finset.mem_insert, hd]

/-- The generate button is rendered exactly when
`selectedCategories.size > 0`. -/
def generateButtonShown (sel : Finset String) : Bool := decide (0 < sel.card)

/-- `Array.from(selectedCategories).join(',')`, with the set enumerated in
sorted order (the downstream consumer treats the list as unordered). -/
def serializeCategories (sel : Finset String) : String :=
  String.intercalate "," (sel.sort (· ≤ ·))

/-- State of the preview page: loaded image, selected categories, session
storage, navigation target (`none` while still on the page), the selection
recorded at the moment of a successful generate navigation, and the console
error log. -/
structure PreviewMachine where
  imageUrl : Option String
  sel : Finset String
  store : Store
  nav : Option String
  transferred : Option (Finset String)
  log : List String

/-- `handleGenerateDesign`: validates the image payload (`data:image/`
prefix, `;base64` marker in the header before the first comma, a nonempty
base64 segment between the first two commas, `atob` success on it); any
failure logs the cause and aborts; success stores the image under
`designPhoto` and navigates to the compare page carrying only the
serialized categories. -/
def handleGenerateDesign (s : PreviewMachine) : PreviewMachine :=
  match s.imageUrl with
  | none => { s with log := s.log ++ ["No image URL available"] }
  | some imageUrl =>
    if !(strStartsWith imageUrl "data:image/") then
      { s with log := s.log ++
        ["Error preparing image: Invalid image format"] }
    else
      match jsSplitComma imageUrl with
      | [] => { s with log := s.log ++
          ["Error preparing image: Invalid image data format"] }
      | header :: rest =>
        match rest.head? with
        | none => { s with log := s.log ++
            ["Error preparing image: Invalid image data format"] }
        | some base64Data =>
          if !(includesSub header ";base64") || base64Data == "" then
            { s with log := s.log ++
              ["Error preparing image: Invalid image data format"] }
          else
            match atob base64Data with
            | none => { s with log := s.log ++
                ["Error preparing image: Invalid base64 image data"] }
            | some _ =>
              { s with
                store := setItem s.store "designPhoto" imageUrl,
                nav := some ("/compare?categories=" ++
                  serializeCategories s.sel),
                transferred := some s.sel }

/-- The checks `handleGenerateDesign` requires of the image payload. -/
def validImagePayload (u : String) : Bool :=
  strStartsWith u "data:image/" &&
  (match jsSplitComma u with
   | [] => false
   | header :: rest =>
     match rest.head? with
     | none => false
     | some b => includesSub header ";base64" && !(b == "") &&
         (atob b).isSome)

theorem handleGenerateDesign_cases (s : PreviewMachine) (u : String)
    (hu : s.imageUrl = some u) :
    (validImagePayload u = false ∧
      ∃ msg, handleGenerateDesign s = { s with log := s.log ++ [msg] }) ∨
    (validImagePayload u = true ∧ handleGenerateDesign s =
      { s with
        store := setItem s.store "designPhoto" u,
        nav := some ("/compare?categories=" ++ serializeCategories s.sel),
        transferred := some s.sel }) := by
  cases hpre : strStartsWith u "data:image/" with
  | false =>
    left
    refine ⟨by simp [validImagePayload, hpre],
      "Error preparing image: Invalid image format",
      by simp [handleGenerateDesign, hu, hpre]⟩
  | true =>
    cases hsplit : jsSplitComma u with
    | nil =>
      left
      refine ⟨by simp [validImagePayload, hpre, hsplit],
        "Error preparing image: Invalid image data format",
        by simp [handleGenerateDesign, hu, hpre, hsplit]⟩
    | cons header rest =>
      cases hhd : rest.head? with
      | none =>
        left
        refine ⟨by simp [validImagePayload, hpre, hsplit, hhd],
          "Error preparing image: Invalid image data format",
          by simp [handleGenerateDesign, hu, hpre, hsplit, hhd]⟩
      | some b =>
        cases hinc : includesSub header ";base64" with
        | false =>
          left
          refine ⟨by simp [validImagePayload, hpre, hsplit, hhd, hinc],
            "Error preparing image: Invalid image data format",
            by simp [handleGenerateDesign, hu, hpre, hsplit, hhd, hinc]⟩
        | true =>
          cases hb : (b == "") with
          | true =>
            left
            refine ⟨by simp [validImagePayload, hpre, hsplit, hhd, hinc, hb],
              "Error preparing image: Invalid image data format",
              by simp [handleGenerateDesign, hu, hpre, hsplit, hhd,
                hinc, hb]⟩
          | false =>
            cases hat : atob b with
            | none =>
              left
              refine ⟨by simp [validImagePayload, hpre, hsplit, hhd, hinc,
                  hb, hat],
                "Error preparing image: Invalid base64 image data",
                by simp [handleGenerateDesign, hu, hpre, hsplit, hhd,
                  hinc, hb, hat]⟩
            | some dec =>
              right
              refine ⟨by simp [validImagePayload, hpre, hsplit, hhd, hinc,
                  hb, hat], ?_⟩
              simp [handleGenerateDesign, hu, hpre, hsplit, hhd, hinc,
                hb, hat]

/-- C8: with an image loaded, the generate action requires the payload to
start with `data:image/`, carry a `;base64` marker in its header, and
decode as base64; when any check fails, navigation does not happen, nothing
is written to session storage, and exactly one cause is logged; when all
checks pass, the image is stored under `designPhoto` and navigation
proceeds with the serialized categories. -/
theorem image_payload_validation_spec (s : PreviewMachine) (u : String)
    (hu : s.imageUrl = some u) :
    (validImagePayload u = false →
      (handleGenerateDesign s).nav = s.nav ∧
      (handleGenerateDesign s).store = s.store ∧
      ∃ msg, (handleGenerateDesign s).log = s.log ++ [msg]) ∧
    (validImagePayload u = true →
      (handleGenerateDesign s).nav =
        some ("/compare?categories=" ++ serializeCategories s.sel) ∧
      (handleGenerateDesign s).store = setItem s.store "designPhoto" u) := by
  rcases handleGenerateDesign_cases s u hu with ⟨hval, msg, heq⟩ | ⟨hval, heq⟩
  · constructor
    · intro _
      rw [heq]
      exact ⟨rfl, rfl, msg, rfl⟩
    · intro hv
      rw [hval] at hv
      cases hv
  · constructor
    · intro hv
      rw [hval] at hv
      cases hv
    · intro _
      rw [heq]
      exact ⟨rfl, rfl⟩

/-- Witness for `image_payload_validation_spec`: a payload with no comma
(and hence no base64 body) aborts navigation and writes nothing. -/
theorem image_payload_validation_spec_witness :
    (handleGenerateDesign
      ⟨some "data:image/png", ∅, [], none, none, []⟩).nav = none ∧
    (handleGenerateDesign
      ⟨some "data:image/png", ∅, [], none, none, []⟩).store = [] := by
  have h := image_payload_validation_spec
    ⟨some "data:image/png", ∅, [], none, none, []⟩ "data:image/png" rfl
  have h2 := h.1 (by decide)
  exact ⟨h2.1, h2.2.1⟩

/-- User events of the preview page: toggling a category button, or
clicking the generate button. -/
inductive PEvent
  | toggle (c : String)
  | clickGenerate

/-- One user event.  The generate button exists in the DOM only when
`generateButtonShown`, so `clickGenerate` is a no-op otherwise. -/
def pstep (s : PreviewMachine) (e : PEvent) : PreviewMachine :=
  match e with
  | .toggle c => { s with sel := toggleCategory c s.sel }
  | .clickGenerate =>
    if generateButtonShown s.sel then handleGenerateDesign s else s

/-- Run a sequence of user events. -/
def prun (s : PreviewMachine) (evs : List PEvent) : PreviewMachine :=
  evs.foldl pstep s

/-- Initial preview-page state: loaded image, empty selection, no
navigation yet. -/
def previewStart (img : Option String) (st : Store) : PreviewMachine :=
  ⟨img, ∅, st, none, none, []⟩

/-- Invariant: any selection recorded at a generate navigation is
non-empty. -/
def selNonemptyWhenTransferred (s : PreviewMachine) : Prop :=
  ∀ S, s.transferred = some S → S.Nonempty

theorem handleGenerateDesign_transferred (s : PreviewMachine) :
    (handleGenerateDesign s).transferred = s.transferred ∨
    (handleGenerateDesign s).transferred = some s.sel := by
  unfold handleGenerateDesign
  repeat' split
  all_goals first | (left; rfl) | (right; rfl)

theorem pstep_preserves (s : PreviewMachine) (e : PEvent) :
    selNonemptyWhenTransferred s →
    selNonemptyWhenTransferred (pstep s e) := by
  intro hs
  cases e with
  | toggle c =>
    intro S hS
    exact hs S hS
  | clickGenerate =>
    by_cases hg : generateButtonShown s.sel = true
    · intro S hS
      simp only [pstep, if_pos hg] at hS
      rcases handleGenerateDesign_transferred s with h | h
      · rw [h] at hS
        exact hs S hS
      · rw [h] at hS
        injection hS with hS2
        subst hS2
        exact Finset.card_pos.mp (by
          have := of_decide_eq_true hg
          exact this)
    · intro S hS
      simp only [pstep, if_neg hg] at hS
      exact hs S hS

theorem prun_preserves (evs : List PEvent) :
    ∀ s : PreviewMachine, selNonemptyWhenTransferred s →
      selNonemptyWhenTransferred (prun s evs) := by
  induction evs with
  | nil =>
    intro s hs
    exact hs
  | cons e t ih =>
    intro s hs
    exact ih _ (pstep_preserves s e hs)

/-- C7: the generate action is invocable exactly when the selection is
non-empty, and consequently, along every event sequence from the initial
preview state, any selection recorded at a generate navigation (reaching
the generation step) is non-empty. -/
theorem generate_action_nonempty_selection :
    (∀ sel : Finset String, generateButtonShown sel = true ↔ sel ≠ ∅) ∧
    (∀ (img : Option String) (st : Store) (evs : List PEvent)
      (S : Finset String),
      (prun (previewStart img st) evs).transferred = some S →
        S.Nonempty) := by
  constructor
  · intro sel
    rw [generateButtonShown, decide_eq_true_iff, Finset.card_pos,
      Finset.nonempty_iff_ne_empty]
  · intro img st evs S hS
    have hinv : selNonemptyWhenTransferred (previewStart img st) := by
      intro S2 h2
      exact Option.noConfusion h2
    exact prun_preserves evs _ hinv S hS

/-- Witness for `generate_action_nonempty_selection`: toggling `floor` then
clicking generate records the non-empty selection `{floor}`. -/
theorem generate_action_nonempty_selection_witness :
    ({"floor"} : Finset String).Nonempty := by
  have h := generate_action_nonempty_selection
  exact h.2 (some "data:image/jpeg;base64,QUJD") []
    [PEvent.toggle "floor", PEvent.clickGenerate] {"floor"} (by decide)

/-! ## Compare Controller (compare page) -/

/-- A generated design slot: React list key and displayable image. -/
structure GeneratedDesign where
  id : String
  imageUrl : String
deriving Repr, DecidableEq

/-- React state of the compare page relevant to generation. -/
structure CompareState where
  designs : Option (GeneratedDesign × GeneratedDesign)
  loadingDesignIndex : Option Nat
  error : Option String
  isLoading : Bool
deriving Repr, DecidableEq

/-- One call to `generateDesigns` issued by the compare page: the source
image and the optional style tile argument. -/
structure GenCall where
  image : String
  tile : Option String
deriving Repr, DecidableEq

/-- `Promise.all` over two generation outcomes.  The result tuple is
positional; only the error reported when both reject depends on which
settles first (`firstCompletesFirst`). -/
def promiseAll2 (firstCompletesFirst : Bool)
    (o1 o2 : Except String JsBlob) : Except String (JsBlob × JsBlob) :=
  match o1, o2 with
  | .ok b1, .ok b2 => .ok (b1, b2)
  | .error e, .ok _ => .error e
  | .ok _, .error e => .error e
  | .error e1, .error e2 => .error (if firstCompletesFirst then e1 else e2)

/-- `generateInitialDesigns`: with a photo present, issue two
`generateDesigns(originalPhoto)` calls (no style tile), join them with
`Promise.all`, and only then store both slots positionally under the fixed
ids `1` and `2`; on rejection set the error and leave `designs`
untouched. -/
def generateInitialDesigns (originalPhoto : Option String) (order : Bool)
    (o1 o2 : Except String JsBlob) (s : CompareState) :
    CompareState × List GenCall :=
  match originalPhoto with
  | none => ({ s with error := some "No original photo provided" }, [])
  | some photo =>
    let s1 : CompareState := { s with isLoading := true, error := none }
    let calls : List GenCall := [⟨photo, none⟩, ⟨photo, none⟩]
    match promiseAll2 order o1 o2 with
    | .ok (b1, b2) =>
      ({ s1 with
          designs := some (⟨"1", blobToDataURL b1⟩,
            ⟨"2", blobToDataURL b2⟩),
          isLoading := false }, calls)
    | .error e =>
      ({ s1 with error := some e, isLoading := false }, calls)

/-- `handleDesignChoice`: mark the other slot as regenerating, issue one
`generateDesigns(originalPhoto)` call, and on success replace only the
other slot, keyed by `Date.now().toString()` (the `now` argument); on
failure set the inline error and leave `designs` untouched. -/
def handleDesignChoice (originalPhoto : Option String) (chosenIndex : Nat)
    (now : Nat) (outcome : Except String JsBlob) (s : CompareState) :
    CompareState × List GenCall :=
  match originalPhoto with
  | none => (s, [])
  | some photo =>
    let otherIndex := if chosenIndex = 0 then 1 else 0
    let s1 : CompareState := { s with loadingDesignIndex := some otherIndex }
    match outcome with
    | .ok b =>
      let newDesign : GeneratedDesign := ⟨natToString now, blobToDataURL b⟩
      let s2 : CompareState := { s1 with
        designs := s1.designs.map (fun p =>
          if otherIndex = 0 then (newDesign, p.2) else (p.1, newDesign)) }
      ({ s2 with loadingDesignIndex := none }, [⟨photo, none⟩])
    | .error _ =>
      ({ s1 with
          loadingDesignIndex := none,
          error :=
            some "Failed to generate new design. Please try again." },
        [⟨photo, none⟩])

/-- What the compare page renders: the generating banner, the two design
slots (with at most one marked regenerating), the inline error with its
retry button, or the plain loading text. -/
inductive CompareView
  | generatingPair
  | designPair (d0 d1 : GeneratedDesign) (loadingIdx : Option Nat)
  | retryError (msg : String)
  | loadingText
deriving Repr, DecidableEq

/-- The render branch structure of the compare page. -/
def renderView (s : CompareState) : CompareView :=
  if s.isLoading then .generatingPair
  else match s.designs with
  | some (d0, d1) => .designPair d0 d1 s.loadingDesignIndex
  | none =>
    match s.error with
    | some e => .retryError e
    | none => .loadingText

/-- The retry button's click handler: clear the error and re-invoke the
full initial generation. -/
def retryClick (originalPhoto : Option String) (order : Bool)
    (o1 o2 : Except String JsBlob) (s : CompareState) :
    CompareState × List GenCall :=
  generateInitialDesigns originalPhoto order o1 o2 { s with error := none }

/-- C4: initial generation issues exactly two calls, both without a style
tile; both slots are committed only when both outcomes are successes, with
slot assignment positional and fixed at issue time (the `designs` result is
independent of completion order); if either outcome rejects, no slot is
populated, the error state renders the retry affordance, and the retry
action re-issues the full two-call generation. -/
theorem initial_generation_pair_spec (photo : String) (order : Bool)
    (o1 o2 : Except String JsBlob) (s : CompareState)
    (hd : s.designs = none) :
    (generateInitialDesigns (some photo) order o1 o2 s).2 =
      [⟨photo, none⟩, ⟨photo, none⟩] ∧
    (∀ b1 b2, o1 = .ok b1 → o2 = .ok b2 →
      (generateInitialDesigns (some photo) order o1 o2 s).1.designs =
        some (⟨"1", blobToDataURL b1⟩, ⟨"2", blobToDataURL b2⟩)) ∧
    ((generateInitialDesigns (some photo) true o1 o2 s).1.designs =
      (generateInitialDesigns (some photo) false o1 o2 s).1.designs) ∧
    (((∃ e, o1 = .error e) ∨ (∃ e, o2 = .error e)) →
      (generateInitialDesigns (some photo) order o1 o2 s).1.designs =
        none ∧
      ∃ e, (generateInitialDesigns (some photo) order o1 o2 s).1.error =
          some e ∧
        renderView (generateInitialDesigns (some photo) order o1 o2 s).1 =
          .retryError e) ∧
    (retryClick (some photo) order o1 o2 s).2 =
      [⟨photo, none⟩, ⟨photo, none⟩] := by
  refine ⟨?_, ?_, ?_, ?_, ?_⟩
  · cases o1 <;> cases o2 <;> simp [generateInitialDesigns, promiseAll2]
  · intro b1 b2 h1 h2
    subst h1
    subst h2
    simp [generateInitialDesigns, promiseAll2]
  · cases o1 <;> cases o2 <;>
      simp [generateInitialDesigns, promiseAll2, hd]
  · intro hrej
    cases o1 with
    | error e1 =>
      cases o2 with
      | ok b2 =>
        refine ⟨by simp [generateInitialDesigns, promiseAll2, hd], e1,
          by simp [generateInitialDesigns, promiseAll2],
          by simp [generateInitialDesigns, promiseAll2, renderView, hd]⟩
      | error e2 =>
        cases order with
        | true =>
          refine ⟨by simp [generateInitialDesigns, promiseAll2, hd], e1,
            by simp [generateInitialDesigns, promiseAll2],
            by simp [generateInitialDesigns, promiseAll2, renderView, hd]⟩
        | false =>
          refine ⟨by simp [generateInitialDesigns, promiseAll2, hd], e2,
            by simp [generateInitialDesigns, promiseAll2],
            by simp [generateInitialDesigns, promiseAll2, renderView, hd]⟩
    | ok b1 =>
      cases o2 with
      | error e2 =>
        refine ⟨by simp [generateInitialDesigns, promiseAll2, hd], e2,
          by simp [generateInitialDesigns, promiseAll2],
          by simp [generateInitialDesigns, promiseAll2, renderView, hd]⟩
      | ok b2 =>
        exfalso
        rcases hrej with ⟨e, he⟩ | ⟨e, he⟩ <;> cases he
  · cases o1 <;> cases o2 <;>
      simp [retryClick, generateInitialDesigns, promiseAll2]

/-- Witness for `initial_generation_pair_spec`: both calls reject, no slot
is populated, and exactly two tile-less calls were issued. -/
theorem initial_generation_pair_spec_witness :
    (generateInitialDesigns (some "p") true (.error "model unavailable")
      (.error "model unavailable") ⟨none, none, none, false⟩).1.designs =
      none ∧
    (generateInitialDesigns (some "p") true (.error "model unavailable")
      (.error "model unavailable") ⟨none, none, none, false⟩).2 =
      [⟨"p", none⟩, ⟨"p", none⟩] := by
  have h := initial_generation_pair_spec "p" true (.error "model unavailable")
    (.error "model unavailable") ⟨none, none, none, false⟩ rfl
  exact ⟨(h.2.2.2.1 (Or.inl ⟨"model unavailable", rfl⟩)).1, h.1⟩

/-- C3 counterexample: the fresh identifier is `Date.now().toString()`, so
when the replaced slot's prior identifier was minted at the same
millisecond (here both are `1700000000000`), the replacement carries the
same identifier as the design it replaces — the claimed unconditional
distinctness fails at this input. -/
theorem design_choice_id_clash_cex :
    ((handleDesignChoice (some "p") 0 1700000000000
        (.ok ⟨"image/jpeg", "X"⟩)
        ⟨some (⟨"1", "img0"⟩, ⟨"1700000000000", "img1"⟩), none, none,
          false⟩).1.designs.map (fun p => p.2.id)) =
      some "1700000000000" ∧
    ((⟨some (⟨"1", "img0"⟩, ⟨"1700000000000", "img1"⟩), none, none,
        false⟩ : CompareState).designs.map (fun p => p.2.id)) =
      some "1700000000000" := by
  exact ⟨rfl, rfl⟩

/-- C3, amended: choosing slot `i` leaves slot `i` unchanged and replaces
only the other slot with the new image under the identifier
`Date.now().toString()` (distinct from the replaced slot's prior identifier
exactly when that clock string differs from it, e.g. when the prior
identifier was minted at an earlier millisecond); exactly one generation
request is issued; and on failure both slots keep their last-known-good
state while an inline error is set. -/
theorem design_choice_regenerates_other_slot (photo : String)
    (d0 d1 : GeneratedDesign) (i now : Nat)
    (outcome : Except String JsBlob) (s : CompareState)
    (hd : s.designs = some (d0, d1)) (hi : i = 0 ∨ i = 1) :
    (handleDesignChoice (some photo) i now outcome s).2 =
      [⟨photo, none⟩] ∧
    (∀ b, outcome = .ok b →
      (i = 0 →
        (handleDesignChoice (some photo) i now outcome s).1.designs =
          some (d0, ⟨natToString now, blobToDataURL b⟩)) ∧
      (i = 1 →
        (handleDesignChoice (some photo) i now outcome s).1.designs =
          some (⟨natToString now, blobToDataURL b⟩, d1))) ∧
    (∀ e, outcome = .error e →
      (handleDesignChoice (some photo) i now outcome s).1.designs =
        some (d0, d1) ∧
      (handleDesignChoice (some photo) i now outcome s).1.error =
        some "Failed to generate new design. Please try again.") := by
  rcases hi with hi | hi
  · subst hi
    refine ⟨?_, ?_, ?_⟩
    · cases outcome <;> simp [handleDesignChoice]
    · intro b hb
      subst hb
      constructor
      · intro _
        simp [handleDesignChoice, hd]
      · intro hcontra
        exact absurd hcontra (by decide)
    · intro e he
      subst he
      constructor <;> simp [handleDesignChoice, hd]
  · subst hi
    refine ⟨?_, ?_, ?_⟩
    · cases outcome <;> simp [handleDesignChoice]
    · intro b hb
      subst hb
      constructor
      · intro hcontra
        exact absurd hcontra (by decide)
      · intro _
        simp [handleDesignChoice, hd]
    · intro e he
      subst he
      constructor <;> simp [handleDesignChoice, hd]

/-- Witness for `design_choice_regenerates_other_slot`: choosing slot 0
keeps slot 0 and replaces slot 1, with one tile-less call issued. -/
theorem design_choice_regenerates_other_slot_witness :
    (handleDesignChoice (some "p") 0 42 (.ok ⟨"image/jpeg", "X"⟩)
      ⟨some (⟨"1", "a"⟩, ⟨"2", "b"⟩), none, none, false⟩).1.designs =
      some (⟨"1", "a"⟩,
        ⟨natToString 42, blobToDataURL ⟨"image/jpeg", "X"⟩⟩) ∧
    (handleDesignChoice (some "p") 0 42 (.ok ⟨"image/jpeg", "X"⟩)
      ⟨some (⟨"1", "a"⟩, ⟨"2", "b"⟩), none, none, false⟩).2 =
      [⟨"p", none⟩] := by
  have h := design_choice_regenerates_other_slot "p" ⟨"1", "a"⟩ ⟨"2", "b"⟩
    0 42 (.ok ⟨"image/jpeg", "X"⟩)
    ⟨some (⟨"1", "a"⟩, ⟨"2", "b"⟩), none, none, false⟩ rfl (Or.inl rfl)
  exact ⟨(h.2.1 ⟨"image/jpeg", "X"⟩ rfl).1 rfl, h.1⟩
